import Mathlib

/-!
Shallow embedding of the kit allocation / purchase engine implemented in
`solution/src/strategy.py` (class `Strategy`), together with the static data
model of `solution/src/domain.py` and the constants of `config.py`.
Dictionaries keyed by airport code are embedded as total functions with the
same default-to-zero reads the Python code performs via `get`/`setdefault`;
the flight registry (a Python insertion-ordered dict) is an association list
with upsert-in-place semantics; quantities are `Int` (Python ints).
-/

namespace Kits

/-- The four service classes, in the priority order CLASS_ORDER of strategy.py. -/
inductive KitClass
  | FIRST
  | BUSINESS
  | PREMIUM_ECONOMY
  | ECONOMY
deriving DecidableEq

/-- CLASS_ORDER = ["FIRST", "BUSINESS", "PREMIUM_ECONOMY", "ECONOMY"]. -/
def classOrder : List KitClass :=
  [KitClass.FIRST, KitClass.BUSINESS, KitClass.PREMIUM_ECONOMY, KitClass.ECONOMY]

/-- A tick: a (day, hour) pair, as used throughout strategy.py. -/
abbrev Tick := Nat × Nat

/-- Strategy._time_to_int: day * 24 + hour. -/
def timeToInt (t : Tick) : Nat := t.1 * 24 + t.2

/-- Strategy._add_hours: add hours on the absolute form, re-normalize with divmod. -/
def addHours (t : Tick) (delta : Nat) : Tick :=
  let total := t.1 * 24 + t.2 + delta
  (total / 24, total % 24)

/-- Strategy._time_leq: lexicographic (day, hour) comparison. -/
def timeLeq (l r : Tick) : Bool :=
  decide (l.1 < r.1 ∨ (l.1 = r.1 ∧ l.2 ≤ r.2))

/-- config.TOTAL_GAME_HOURS = 720 (30 days of 24 hours). -/
def TOTAL_GAME_HOURS : Nat := 720

/-- Static airport data (domain.Airport): processing time, capacity and
initial stock per class. -/
structure Airport where
  processing_time : KitClass → Nat
  capacity : KitClass → Nat
  stock : KitClass → Nat

/-- Static aircraft data (domain.AircraftType): kit capacity per class. -/
structure AircraftType where
  kit_capacity : KitClass → Nat

/-- The immutable world reference (domain.NetworkState): airports and
aircraft types, looked up by code. -/
structure World where
  airports : String → Option Airport
  aircraft_types : String → Option AircraftType

/-- strategy.FlightInfo. The aircraft type is optional because the inbound
event field can be absent (event.get returns None). -/
structure FlightInfo where
  flight_id : String
  origin : String
  destination : String
  departure : Tick
  arrival : Tick
  passengers : KitClass → Int
  aircraft_type : Option String

/-- strategy.ProcessingJob: a pending kit arrival. -/
structure ProcessingJob where
  ready_time : Tick
  airport : String
  kit_class : KitClass
  quantity : Int
  flight_id : Option String

/-- An inbound flight-update record as consumed by Strategy.update_state. -/
structure FlightUpdate where
  eventType : String
  flightId : String
  originAirport : String
  destinationAirport : String
  departure : Tick
  arrival : Tick
  passengers : KitClass → Int
  aircraftType : Option String

/-- The mutable engine state of a Strategy instance: flight registry (with
insertion order), departure-tick index, inventory ledger and processing
queue. -/
structure StratState where
  flights : List (String × FlightInfo)
  departures : Tick → List String
  inventory : String → KitClass → Int
  processing_queue : List ProcessingJob

/-- Registry lookup: self.flights.get(f_id). -/
def lookupFlight (m : List (String × FlightInfo)) (k : String) : Option FlightInfo :=
  (m.find? (fun p => p.1 = k)).map Prod.snd

/-- Registry upsert: Python dict assignment keeps the original position of an
existing key and appends a new key at the end. -/
def upsertFlight (m : List (String × FlightInfo)) (k : String) (v : FlightInfo) :
    List (String × FlightInfo) :=
  if m.any (fun p => p.1 = k) then
    m.map (fun p => if p.1 = k then (k, v) else p)
  else
    m ++ [(k, v)]

/-- Point update of the two-level inventory map. -/
def updInv (inv : String → KitClass → Int) (a : String) (c : KitClass) (v : Int) :
    String → KitClass → Int :=
  fun a' c' => if a' = a ∧ c' = c then v else inv a' c'

/-- Aircraft lookup through the optional event field:
self.world.aircraft_types.get(info.aircraft_type), where a None key misses. -/
def aircraftLookup (w : World) : Option String → Option AircraftType
  | none => none
  | some s => w.aircraft_types s

/-- Initial engine state (Strategy.__init__): ledger seeded from each known
airport's static stock, empty registry, index and queue. -/
def initState (w : World) : StratState :=
  { flights := []
    departures := fun _ => []
    inventory := fun code =>
      match w.airports code with
      | some a => fun c => (a.stock c : Int)
      | none => fun _ => 0
    processing_queue := [] }

/-- Strategy._reschedule_processing_for_flight: retime every queued job tagged
with the flight to new_arrival + processing_time[class] + 2; no-op when the
destination airport is unknown. -/
def rescheduleQueue (w : World) (q : List ProcessingJob) (fid : String)
    (newArrival : Tick) (destination : String) : List ProcessingJob :=
  match w.airports destination with
  | none => q
  | some dest =>
      q.map (fun job =>
        if job.flight_id = some fid then
          { job with ready_time := addHours newArrival (dest.processing_time job.kit_class + 2) }
        else job)

/-- One iteration of the event loop in Strategy.update_state. -/
def applyEvent (w : World) (s : StratState) (e : FlightUpdate) : StratState :=
  if e.eventType = "SCHEDULED" ∨ e.eventType = "CHECKED_IN" then
    let previous := lookupFlight s.flights e.flightId
    let info : FlightInfo :=
      { flight_id := e.flightId
        origin := e.originAirport
        destination := e.destinationAirport
        departure := e.departure
        arrival := e.arrival
        passengers := e.passengers
        aircraft_type := e.aircraftType }
    let deps := s.departures e.departure
    let s' : StratState :=
      { s with
        flights := upsertFlight s.flights e.flightId info
        departures := fun t =>
          if t = e.departure then
            (if e.flightId ∈ deps then deps else deps ++ [e.flightId])
          else s.departures t }
    match previous with
    | some prev =>
        if prev.arrival ≠ info.arrival ∧ prev.destination = info.destination then
          { s' with processing_queue :=
              rescheduleQueue w s'.processing_queue e.flightId info.arrival info.destination }
        else s'
    | none => s'
  else s

/-- Strategy.update_state over the flightUpdates list. -/
def updateState (w : World) (s : StratState) (events : List FlightUpdate) : StratState :=
  events.foldl (applyEvent w) s

/-- Strategy._release_completed_processing: credit and drop every job with
ready time ≤ the current tick; keep the rest. -/
def releaseCompleted (s : StratState) (t : Tick) : StratState :=
  let ready := s.processing_queue.filter (fun j => timeLeq j.ready_time t)
  let pending := s.processing_queue.filter (fun j => !(timeLeq j.ready_time t))
  let inv' := ready.foldl
    (fun inv j => updInv inv j.airport j.kit_class (inv j.airport j.kit_class + j.quantity))
    s.inventory
  { s with inventory := inv', processing_queue := pending }

/-- Strategy._future_demand_for_airport: per-class passenger sum over flights
departing the airport with start < departure ≤ start + window (absolute
hours). -/
def futureDemandForAirport (flights : List (String × FlightInfo)) (code : String)
    (start : Tick) (window : Nat) (c : KitClass) : Int :=
  (flights.map Prod.snd).foldl
    (fun acc f =>
      if f.origin = code ∧ timeToInt start < timeToInt f.departure ∧
          timeToInt f.departure ≤ timeToInt start + window then
        acc + f.passengers c
      else acc) 0

/-- Strategy._future_demand_from_hub: per-class passenger sum over flights
departing HUB1 with start ≤ departure ≤ start + window (absolute hours). -/
def futureDemandFromHub (flights : List (String × FlightInfo))
    (current : Tick) (window : Nat) (c : KitClass) : Int :=
  (flights.map Prod.snd).foldl
    (fun acc f =>
      if f.origin = "HUB1" ∧ timeToInt current ≤ timeToInt f.departure ∧
          timeToInt f.departure ≤ timeToInt current + window then
        acc + f.passengers c
      else acc) 0

/-- Strategy._incoming_kits: queued quantities for the airport and class with
start ≤ ready ≤ start + window. -/
def incomingKits (q : List ProcessingJob) (code : String) (current : Tick)
    (window : Nat) (c : KitClass) : Int :=
  q.foldl
    (fun acc j =>
      if j.airport = code ∧ j.kit_class = c ∧ timeToInt current ≤ timeToInt j.ready_time ∧
          timeToInt j.ready_time ≤ timeToInt current + window then
        acc + j.quantity
      else acc) 0

/-- The per-flight load record emitted by api_client.create_flight_load. -/
structure Load where
  flightId : String
  loaded : KitClass → Int

/-- One iteration of the hub-origin class loop in Strategy.decide_kit_loads:
qty = min(cap, hub stock, dest headroom, pax + shortfall at destination, pax),
deducted from the origin ledger entry immediately. -/
def hubClassStep (info : FlightInfo) (cap destCap need : KitClass → Int)
    (acc : (String → KitClass → Int) × (KitClass → Int)) (cls : KitClass) :
    (String → KitClass → Int) × (KitClass → Int) :=
  let inv := acc.1
  let pax := info.passengers cls
  let hubStock := inv info.origin cls
  let destStock := inv info.destination cls
  let destRemainingCap := max 0 (destCap cls - destStock)
  let calculatedNeed := pax + max 0 (need cls - destStock)
  let qty := min (cap cls) (min hubStock (min destRemainingCap (min calculatedNeed pax)))
  (updInv inv info.origin cls (hubStock - qty), fun c => if c = cls then qty else acc.2 c)

/-- One iteration of the outstation class loop in Strategy.decide_kit_loads:
qty = min(pax, cap, available), deducted from the origin ledger entry. -/
def outClassStep (info : FlightInfo) (cap : KitClass → Int)
    (acc : (String → KitClass → Int) × (KitClass → Int)) (cls : KitClass) :
    (String → KitClass → Int) × (KitClass → Int) :=
  let inv := acc.1
  let pax := info.passengers cls
  let available := inv info.origin cls
  let qty := min pax (min (cap cls) available)
  (updInv inv info.origin cls (available - qty), fun c => if c = cls then qty else acc.2 c)

/-- The destination capacity per class as decide_kit_loads reads it: the
airport's capacity when known, zero otherwise. -/
def destCapOf (w : World) (code : String) : KitClass → Int :=
  fun c =>
    match w.airports code with
    | some a => (a.capacity c : Int)
    | none => 0

/-- The processing-return enqueue block of Strategy.decide_kit_loads: for each
class with a positive load, one job at the destination, ready at
arrival + processing_time[class] + 2, tagged with the flight id; skipped
entirely when the destination airport is unknown. -/
def enqueueReturns (w : World) (info : FlightInfo) (fid : String)
    (loads : KitClass → Int) : List ProcessingJob :=
  match w.airports info.destination with
  | none => []
  | some dest =>
      classOrder.filterMap (fun cls =>
        let qty := loads cls
        if qty ≤ 0 then none
        else some
          { ready_time := addHours info.arrival (dest.processing_time cls + 2)
            airport := info.destination
            kit_class := cls
            quantity := qty
            flight_id := some fid })

/-- The body of the per-flight loop of Strategy.decide_kit_loads: an unknown
flight id yields nothing, an unknown aircraft type yields an all-zero load
with no state change; otherwise the hub or outstation class loop runs and the
processing returns are enqueued. -/
def processFlight (w : World) (s : StratState) (fid : String) :
    StratState × Option Load :=
  match lookupFlight s.flights fid with
  | none => (s, none)
  | some info =>
    match aircraftLookup w info.aircraft_type with
    | none => (s, some { flightId := fid, loaded := fun _ => 0 })
    | some aircraft =>
      let cap : KitClass → Int := fun c => (aircraft.kit_capacity c : Int)
      let result :=
        if info.origin = "HUB1" then
          let destCap : KitClass → Int := destCapOf w info.destination
          let need : KitClass → Int := fun c =>
            futureDemandForAirport s.flights info.destination info.arrival 36 c
          classOrder.foldl (hubClassStep info cap destCap need) (s.inventory, fun _ => 0)
        else
          classOrder.foldl (outClassStep info cap) (s.inventory, fun _ => 0)
      let jobs := enqueueReturns w info fid result.2
      ({ s with inventory := result.1, processing_queue := s.processing_queue ++ jobs },
       some { flightId := fid, loaded := result.2 })

/-- The per-flight loop of Strategy.decide_kit_loads over the tick's departure
list, threading the engine state so that a later flight reads the balances
left by the earlier ones. -/
def allocFlights (w : World) (s : StratState) (fids : List String) :
    StratState × List Load :=
  match fids with
  | [] => (s, [])
  | fid :: rest =>
      let step := processFlight w s fid
      let tail := allocFlights w step.1 rest
      (tail.1, match step.2 with
        | some l => l :: tail.2
        | none => tail.2)

/-- Deletion of the consumed departure-index entry at the end of
Strategy.decide_kit_loads. -/
def clearTick (s : StratState) (t : Tick) : StratState :=
  { s with departures := fun u => if u = t then [] else s.departures u }

/-- The allocation part of Strategy.decide_kit_loads after the release of
matured processing jobs. -/
def allocPhase (w : World) (s : StratState) (t : Tick) : StratState × List Load :=
  let result := allocFlights w s (s.departures t)
  (clearTick result.1 t, result.2)

/-- Strategy.decide_kit_loads: release matured jobs, allocate for the flights
departing this tick, clear the tick's index entry. -/
def decideKitLoads (w : World) (s : StratState) (t : Tick) : StratState × List Load :=
  allocPhase w (releaseCompleted s t) t

/-- Strategy.lead_times. -/
def leadTime : KitClass → Nat
  | KitClass.FIRST => 48
  | KitClass.BUSINESS => 36
  | KitClass.PREMIUM_ECONOMY => 24
  | KitClass.ECONOMY => 12

/-- Strategy.purchase_horizon. -/
def purchaseHorizon : KitClass → Nat
  | KitClass.FIRST => 48
  | KitClass.BUSINESS => 36
  | KitClass.PREMIUM_ECONOMY => 24
  | KitClass.ECONOMY => 12

/-- Strategy.purchase_cap_extra. -/
def purchaseCapExtra : KitClass → Int
  | KitClass.FIRST => 20
  | KitClass.BUSINESS => 40
  | KitClass.PREMIUM_ECONOMY => 40
  | KitClass.ECONOMY => 8

/-- int(demand * (1 + purchase_buffer[cls])) of decide_purchases, with the
buffers 0.1, 0.1, 0.05, 0.0 carried as exact rationals and int() as
truncation toward zero (this coincides with the Python float computation for
every |demand| up to two million). -/
def purchaseTargetBase : KitClass → Int → Int
  | KitClass.FIRST, d => (d * 11).tdiv 10
  | KitClass.BUSINESS, d => (d * 11).tdiv 10
  | KitClass.PREMIUM_ECONOMY, d => (d * 21).tdiv 20
  | KitClass.ECONOMY, d => d

/-- The per-class replenishment target of decide_purchases. -/
def purchaseTarget (cls : KitClass) (demand : Int) : Int :=
  purchaseTargetBase cls demand + purchaseCapExtra cls

/-- The per-class order quantity computed by Strategy.decide_purchases. -/
def purchaseOrder (hub : Airport) (s : StratState) (tick : Tick) (cls : KitClass) : Int :=
  let demand := futureDemandFromHub s.flights tick (purchaseHorizon cls) cls
  let incoming := incomingKits s.processing_queue "HUB1" tick (purchaseHorizon cls) cls
  let projected := s.inventory "HUB1" cls + incoming
  let target := purchaseTarget cls demand
  if target ≤ projected then 0
  else if TOTAL_GAME_HOURS ≤ timeToInt tick + leadTime cls then 0
  else if cls = KitClass.ECONOMY ∧ (TOTAL_GAME_HOURS : Int) - (timeToInt tick : Int) < 18 then 0
  else min (target - projected)
    (max 0 ((hub.capacity cls : Int) - (s.inventory "HUB1" cls + incoming)))

/-- Strategy.decide_purchases: compute the per-class hub order and enqueue one
untagged hub job per positive class, ready after the class lead time. -/
def decidePurchases (w : World) (s : StratState) (tick : Tick) :
    StratState × (KitClass → Int) :=
  match w.airports "HUB1" with
  | none => (s, fun _ => 0)
  | some hub =>
    let orders : KitClass → Int := purchaseOrder hub s tick
    let newJobs := classOrder.filterMap (fun cls =>
      if orders cls ≤ 0 then none
      else some
        { ready_time := addHours tick (leadTime cls)
          airport := "HUB1"
          kit_class := cls
          quantity := orders cls
          flight_id := none })
    ({ s with processing_queue := s.processing_queue ++ newJobs }, orders)

/-- One engine tick as driven by the external loop: loads first (which starts
by releasing matured jobs), then the purchase decision. -/
def runTick (w : World) (s : StratState) (t : Tick) :
    StratState × List Load × (KitClass → Int) :=
  let kl := decideKitLoads w s t
  let pu := decidePurchases w kl.1 t
  (pu.1, kl.2, pu.2)

/-! Concrete fixtures used by witnesses and counterexamples. -/

/-- A hub airport with ample stock. -/
def hubAirport : Airport :=
  { processing_time := fun _ => 4, capacity := fun _ => 500, stock := fun _ => 100 }

/-- An outstation A. -/
def airA : Airport :=
  { processing_time := fun _ => 3, capacity := fun _ => 200, stock := fun _ => 0 }

/-- The outstation X of the spec's Scenario C, with ECONOMY stock 3. -/
def airX : Airport :=
  { processing_time := fun _ => 3, capacity := fun _ => 200
    stock := fun c => if c = KitClass.ECONOMY then 3 else 0 }

/-- An aircraft with FIRST capacity 10 and ECONOMY capacity 50. -/
def ac1 : AircraftType :=
  { kit_capacity := fun c =>
      match c with
      | KitClass.FIRST => 10
      | KitClass.ECONOMY => 50
      | _ => 30 }

/-- A small world: hub, outstations A and X, one aircraft type. -/
def w0 : World :=
  { airports := fun code =>
      if code = "HUB1" then some hubAirport
      else if code = "A" then some airA
      else if code = "X" then some airX
      else none
    aircraft_types := fun code => if code = "AC1" then some ac1 else none }

/-- A hub-to-A flight with 4 FIRST passengers. -/
def fA : FlightInfo :=
  { flight_id := "F1", origin := "HUB1", destination := "A"
    departure := (0, 5), arrival := (0, 9)
    passengers := fun c => if c = KitClass.FIRST then 4 else 0
    aircraft_type := some "AC1" }

/-- State with flight F1 registered and departing at (0, 5). -/
def sA : StratState :=
  { initState w0 with
    flights := [("F1", fA)]
    departures := fun t => if t = ((0, 5) : Tick) then ["F1"] else [] }

/-- Scenario C flight: X to A, 10 ECONOMY passengers. -/
def fX : FlightInfo :=
  { flight_id := "F2", origin := "X", destination := "A"
    departure := (0, 5), arrival := (0, 9)
    passengers := fun c => if c = KitClass.ECONOMY then 10 else 0
    aircraft_type := some "AC1" }

/-- State with flight F2 registered and departing at (0, 5). -/
def sX : StratState :=
  { initState w0 with
    flights := [("F2", fX)]
    departures := fun t => if t = ((0, 5) : Tick) then ["F2"] else [] }

/-! Registry and arithmetic lemmas. -/

/-- Replacing the value stored under key `k` does not affect lookups at other
keys. -/
lemma lookupFlight_map_ne (m : List (String × FlightInfo)) (k : String)
    (v : FlightInfo) (fid : String) (hne : fid ≠ k) :
    lookupFlight (m.map (fun p => if p.1 = k then (k, v) else p)) fid =
      lookupFlight m fid := by
  induction m with
  | nil => rfl
  | cons p tl ih =>
      unfold lookupFlight at ih ⊢
      rw [List.map_cons]
      by_cases hk : p.1 = k
      · rw [if_pos hk]
        rw [List.find?_cons_of_neg _ (by simp; exact fun h => hne h.symm),
          List.find?_cons_of_neg _ (by simp [hk]; exact fun h => hne h.symm)]
        exact ih
      · rw [if_neg hk]
        by_cases hf : p.1 = fid
        · rw [List.find?_cons_of_pos _ (by simp [hf]),
            List.find?_cons_of_pos _ (by simp [hf])]
        · rw [List.find?_cons_of_neg _ (by simp [hf]),
            List.find?_cons_of_neg _ (by simp [hf])]
          exact ih

/-- Replacing the value stored under key `k` makes every successful lookup at
`k` return the new value. -/
lemma lookupFlight_map_self (m : List (String × FlightInfo)) (k : String)
    (v : FlightInfo) :
    lookupFlight (m.map (fun p => if p.1 = k then (k, v) else p)) k =
      (lookupFlight m k).map (fun _ => v) := by
  induction m with
  | nil => rfl
  | cons p tl ih =>
      unfold lookupFlight at ih ⊢
      rw [List.map_cons]
      by_cases hk : p.1 = k
      · rw [if_pos hk]
        rw [List.find?_cons_of_pos _ (by simp),
          List.find?_cons_of_pos _ (by simp [hk])]
        rfl
      · rw [if_neg hk]
        rw [List.find?_cons_of_neg _ (by simp [hk]),
          List.find?_cons_of_neg _ (by simp [hk])]
        exact ih

/-- Lookup finds something exactly when some entry carries the key. -/
lemma lookupFlight_isSome_iff (m : List (String × FlightInfo)) (k : String) :
    (lookupFlight m k).isSome = true ↔ m.any (fun p => p.1 = k) = true := by
  simp [lookupFlight, List.find?_isSome, List.any_eq_true]

/-- Lookup after an upsert: the upserted key maps to the new value, every
other key is untouched. -/
lemma lookupFlight_upsert (m : List (String × FlightInfo)) (k : String)
    (v : FlightInfo) (fid : String) :
    lookupFlight (upsertFlight m k v) fid =
      if fid = k then some v else lookupFlight m fid := by
  unfold upsertFlight
  by_cases hany : m.any (fun p => p.1 = k) = true
  · rw [if_pos hany]
    by_cases hf : fid = k
    · subst hf
      rw [if_pos rfl, lookupFlight_map_self]
      obtain ⟨x, hx⟩ := Option.isSome_iff_exists.mp
        ((lookupFlight_isSome_iff m fid).mpr hany)
      rw [hx]
      rfl
    · rw [if_neg hf, lookupFlight_map_ne m k v fid hf]
  · rw [if_neg hany]
    have hnone : List.find? (fun p => p.1 = k) m = none := by
      refine List.find?_eq_none.mpr (fun x hx => ?_)
      intro hxk
      exact hany (List.any_eq_true.mpr ⟨x, hx, hxk⟩)
    by_cases hf : fid = k
    · subst hf
      rw [if_pos rfl]
      unfold lookupFlight
      rw [List.find?_append, hnone, Option.none_or,
        List.find?_cons_of_pos _ (by simp)]
      rfl
    · rw [if_neg hf]
      unfold lookupFlight
      rw [List.find?_append,
        show List.find? (fun p => p.1 = fid) [(k, v)] = none from
          List.find?_eq_none.mpr (by simp; exact fun h => hf h.symm),
        Option.or_none]

/-- applyEvent never removes a registry entry. -/
lemma applyEvent_lookup_isSome (w : World) (s : StratState) (e : FlightUpdate)
    (fid : String) (h : (lookupFlight s.flights fid).isSome = true) :
    (lookupFlight (applyEvent w s e).flights fid).isSome = true := by
  unfold applyEvent
  by_cases he : e.eventType = "SCHEDULED" ∨ e.eventType = "CHECKED_IN"
  · rw [if_pos he]
    have hgoal : ∀ m : List (String × FlightInfo),
        (∃ v0, m = upsertFlight s.flights e.flightId v0) →
        (lookupFlight m fid).isSome = true := by
      rintro m ⟨v0, rfl⟩
      rw [lookupFlight_upsert]
      by_cases hf : fid = e.flightId <;> simp [hf, h]
    cases hprev : lookupFlight s.flights e.flightId with
    | none => simp only [hprev]; exact hgoal _ ⟨_, rfl⟩
    | some prev =>
        simp only [hprev]
        split <;> exact hgoal _ ⟨_, rfl⟩
  · rw [if_neg he]; exact h

/-- Adding hours on a tick adds on the absolute-hour form: the divmod
re-normalization of _add_hours is lossless. -/
lemma timeToInt_addHours (t : Tick) (d : Nat) :
    timeToInt (addHours t d) = timeToInt t + d := by
  simp only [timeToInt, addHours]
  omega

/-- The outstation class loop of processFlight computes, for every class,
min(passengers, capacity, origin stock) and deducts it from the origin ledger
entry. -/
lemma processFlight_out_eq (w : World) (s : StratState) (fid : String)
    (info : FlightInfo) (aircraft : AircraftType)
    (hf : lookupFlight s.flights fid = some info)
    (ho : info.origin ≠ "HUB1")
    (ha : aircraftLookup w info.aircraft_type = some aircraft)
    (cls : KitClass) :
    ((processFlight w s fid).2.map (fun l => l.loaded cls)) =
      some (min (info.passengers cls)
        (min (aircraft.kit_capacity cls : Int) (s.inventory info.origin cls))) ∧
    (processFlight w s fid).1.inventory info.origin cls =
      s.inventory info.origin cls -
        min (info.passengers cls)
          (min (aircraft.kit_capacity cls : Int) (s.inventory info.origin cls)) := by
  cases cls <;>
    simp [processFlight, hf, ha, ho, classOrder, outClassStep, updInv]

set_option maxHeartbeats 1600000 in
/-- The hub-origin class loop of processFlight computes, for every class, the
min of aircraft capacity, live hub stock, destination headroom, buffered
requirement and passengers, and deducts it from the hub ledger entry. -/
lemma processFlight_hub_eq (w : World) (s : StratState) (fid : String)
    (info : FlightInfo) (aircraft : AircraftType)
    (hf : lookupFlight s.flights fid = some info)
    (ho : info.origin = "HUB1")
    (ha : aircraftLookup w info.aircraft_type = some aircraft)
    (cls : KitClass) :
    ((processFlight w s fid).2.map (fun l => l.loaded cls)) =
      some (min (aircraft.kit_capacity cls : Int)
        (min (s.inventory "HUB1" cls)
          (min (max 0 (destCapOf w info.destination cls -
              s.inventory info.destination cls))
            (min (info.passengers cls +
                max 0 (futureDemandForAirport s.flights info.destination info.arrival 36 cls -
                  s.inventory info.destination cls))
              (info.passengers cls))))) ∧
    (processFlight w s fid).1.inventory "HUB1" cls =
      s.inventory "HUB1" cls -
        min (aircraft.kit_capacity cls : Int)
          (min (s.inventory "HUB1" cls)
            (min (max 0 (destCapOf w info.destination cls -
                s.inventory info.destination cls))
              (min (info.passengers cls +
                  max 0 (futureDemandForAirport s.flights info.destination info.arrival 36 cls -
                    s.inventory info.destination cls))
                (info.passengers cls)))) := by
  constructor <;>
    cases cls <;>
      simp [processFlight, hf, ha, ho, classOrder, hubClassStep, updInv]

/-! Claim theorems. -/

/-- C2: for a flight whose origin is not the hub and whose aircraft type is
known, the loaded quantity for every class is
min(passengers, aircraft kit capacity, origin ledger balance), and it is
subtracted from the origin ledger immediately. -/
theorem outstation_load_formula (w : World) (s : StratState) (fid : String)
    (info : FlightInfo) (aircraft : AircraftType)
    (hf : lookupFlight s.flights fid = some info)
    (ho : info.origin ≠ "HUB1")
    (ha : aircraftLookup w info.aircraft_type = some aircraft)
    (cls : KitClass) :
    ((processFlight w s fid).2.map (fun l => l.loaded cls)) =
      some (min (info.passengers cls)
        (min (aircraft.kit_capacity cls : Int) (s.inventory info.origin cls))) ∧
    (processFlight w s fid).1.inventory info.origin cls =
      s.inventory info.origin cls -
        min (info.passengers cls)
          (min (aircraft.kit_capacity cls : Int) (s.inventory info.origin cls)) :=
  processFlight_out_eq w s fid info aircraft hf ho ha cls

/-- Witness for C2, the spec's Scenario C: outstation X has ECONOMY stock 3,
the flight has 10 ECONOMY passengers, the aircraft ECONOMY capacity is 50;
the loaded ECONOMY quantity is 3 and the X ledger drops to 0. -/
theorem outstation_load_formula_witness :
    ((processFlight w0 sX "F2").2.map (fun l => l.loaded KitClass.ECONOMY)) = some 3 ∧
    (processFlight w0 sX "F2").1.inventory "X" KitClass.ECONOMY = 0 := by
  have h := outstation_load_formula w0 sX "F2" fX ac1 rfl (by decide) rfl KitClass.ECONOMY
  refine ⟨?_, ?_⟩
  · rw [h.1]; rfl
  · show (processFlight w0 sX "F2").1.inventory fX.origin KitClass.ECONOMY = 0
    rw [h.2]; rfl

/-- C1: for a flight departing the hub with a known aircraft type, the loaded
quantity per class is min(aircraft kit capacity, hub ledger balance,
max(0, destination capacity − destination ledger balance),
pax + max(0, forecast need over the 36-hour window at the arrival tick −
destination ledger balance), pax); it is subtracted from the hub ledger
immediately, so the remaining flights of the tick are processed from the
reduced state. -/
theorem hub_load_formula (w : World) (s : StratState) (fid : String)
    (info : FlightInfo) (aircraft : AircraftType) (destA : Airport)
    (hf : lookupFlight s.flights fid = some info)
    (ho : info.origin = "HUB1")
    (ha : aircraftLookup w info.aircraft_type = some aircraft)
    (hd : w.airports info.destination = some destA)
    (cls : KitClass) :
    ∃ q : Int,
      ((processFlight w s fid).2.map (fun l => l.loaded cls)) = some q ∧
      q = min (aircraft.kit_capacity cls : Int)
          (min (s.inventory "HUB1" cls)
            (min (max 0 ((destA.capacity cls : Int) - s.inventory info.destination cls))
              (min (info.passengers cls +
                  max 0 (futureDemandForAirport s.flights info.destination info.arrival 36 cls -
                    s.inventory info.destination cls))
                (info.passengers cls)))) ∧
      (processFlight w s fid).1.inventory "HUB1" cls =
        s.inventory "HUB1" cls - q ∧
      ∀ rest : List String,
        (allocFlights w s (fid :: rest)).1 =
          (allocFlights w (processFlight w s fid).1 rest).1 := by
  have h := processFlight_hub_eq w s fid info aircraft hf ho ha cls
  have hdc : destCapOf w info.destination cls = (destA.capacity cls : Int) := by
    simp [destCapOf, hd]
  refine ⟨_, ?_, rfl, ?_, fun rest => rfl⟩
  · rw [h.1, hdc]
  · rw [h.2, hdc]

/-- Witness for C1, the spec's Scenario A: hub FIRST stock 100, flight
HUB1→A with 4 FIRST passengers, aircraft FIRST capacity 10, destination A
empty with no forecast need; loaded FIRST is 4 and the hub ledger drops
to 96. -/
theorem hub_load_formula_witness :
    ((processFlight w0 sA "F1").2.map (fun l => l.loaded KitClass.FIRST)) = some 4 ∧
    (processFlight w0 sA "F1").1.inventory "HUB1" KitClass.FIRST = 96 := by
  obtain ⟨q, h1, h2, h3, _⟩ :=
    hub_load_formula w0 sA "F1" fA ac1 airA rfl rfl rfl rfl KitClass.FIRST
  refine ⟨?_, ?_⟩
  · rw [h1, h2]; rfl
  · rw [h3, h2]; rfl

/-- A job tagged with flight F1. -/
def jobF1 : ProcessingJob :=
  { ready_time := (0, 14), airport := "A", kit_class := KitClass.FIRST
    quantity := 4, flight_id := some "F1" }

/-- An untagged hub purchase job. -/
def jobHub : ProcessingJob :=
  { ready_time := (2, 0), airport := "HUB1", kit_class := KitClass.ECONOMY
    quantity := 8, flight_id := none }

/-- State sA with a two-job processing queue. -/
def sQ : StratState := { sA with processing_queue := [jobF1, jobHub] }

/-- A check-in event moving F1's arrival from (0, 9) to (0, 11), destination
unchanged. -/
def eResched : FlightUpdate :=
  { eventType := "CHECKED_IN", flightId := "F1", originAirport := "HUB1"
    destinationAirport := "A", departure := (0, 5), arrival := (0, 11)
    passengers := fun c => if c = KitClass.FIRST then 4 else 0
    aircraftType := some "AC1" }

/-- A landing event for F1 (a kind update_state does not handle). -/
def eLand : FlightUpdate := { eResched with eventType := "LANDED" }

/-- C9: an event for a known flight whose arrival changed and whose
destination is unchanged retimes exactly the queued jobs tagged with that
flight id to the new arrival plus the destination's processing time plus the
safety margin of 2 hours; every job not tagged with the id is completely
unchanged. -/
theorem reschedule_updates_tagged_only (w : World) (s : StratState)
    (e : FlightUpdate) (prev : FlightInfo) (dest : Airport)
    (he : e.eventType = "SCHEDULED" ∨ e.eventType = "CHECKED_IN")
    (hp : lookupFlight s.flights e.flightId = some prev)
    (harr : prev.arrival ≠ e.arrival)
    (hdst : prev.destination = e.destinationAirport)
    (hw : w.airports e.destinationAirport = some dest) :
    (applyEvent w s e).processing_queue =
      s.processing_queue.map (fun job =>
        if job.flight_id = some e.flightId then
          { job with ready_time :=
              addHours e.arrival (dest.processing_time job.kit_class + 2) }
        else job) ∧
    (∀ job ∈ s.processing_queue, job.flight_id ≠ some e.flightId →
      job ∈ (applyEvent w s e).processing_queue) ∧
    (∀ c : KitClass,
      timeToInt (addHours e.arrival (dest.processing_time c + 2)) =
        timeToInt e.arrival + dest.processing_time c + 2) := by
  have hqueue : (applyEvent w s e).processing_queue =
      s.processing_queue.map (fun job =>
        if job.flight_id = some e.flightId then
          { job with ready_time :=
              addHours e.arrival (dest.processing_time job.kit_class + 2) }
        else job) := by
    unfold applyEvent
    rw [if_pos he]
    simp only [hp]
    rw [if_pos ⟨harr, hdst⟩]
    simp only [rescheduleQueue]
    rw [hw]
  refine ⟨hqueue, ?_, ?_⟩
  · intro job hmem hne
    rw [hqueue]
    have : (if job.flight_id = some e.flightId then
        ({ job with ready_time :=
            addHours e.arrival (dest.processing_time job.kit_class + 2) } :
          ProcessingJob)
      else job) = job := if_neg hne
    exact this ▸ List.mem_map_of_mem _ hmem
  · intro c
    rw [timeToInt_addHours]
    omega

/-- Witness for C9: the arrival of F1 moves from (0, 9) to (0, 11); the job
tagged F1 is retimed to (0, 11) + 3 + 2 = (0, 16) and the untagged hub job is
untouched. -/
theorem reschedule_updates_tagged_only_witness :
    (applyEvent w0 sQ eResched).processing_queue =
      [{ jobF1 with ready_time := (0, 16) }, jobHub] := by
  have h := reschedule_updates_tagged_only w0 sQ eResched fA airA
    (Or.inr rfl) rfl (by decide) rfl rfl
  rw [h.1]
  rfl

/-- C10: an event whose kind is neither SCHEDULED nor CHECKED_IN (such as a
landing event) leaves the whole engine state unchanged, and a flight once
recorded in the registry is never removed by any later event stream. -/
theorem non_schedule_event_noop (w : World) (s : StratState) (e : FlightUpdate)
    (h1 : e.eventType ≠ "SCHEDULED") (h2 : e.eventType ≠ "CHECKED_IN") :
    applyEvent w s e = s ∧
    ∀ (events : List FlightUpdate) (fid : String),
      (lookupFlight s.flights fid).isSome = true →
      (lookupFlight (updateState w s events).flights fid).isSome = true := by
  constructor
  · unfold applyEvent
    rw [if_neg (by rintro (h | h); exacts [h1 h, h2 h])]
  · have aux : ∀ (events : List FlightUpdate) (s' : StratState) (fid : String),
        (lookupFlight s'.flights fid).isSome = true →
        (lookupFlight (updateState w s' events).flights fid).isSome = true := by
      intro events
      induction events with
      | nil => intro s' fid h; exact h
      | cons e0 rest ih =>
          intro s' fid h
          exact ih (applyEvent w s' e0) fid (applyEvent_lookup_isSome w s' e0 fid h)
    exact fun events fid h => aux events s fid h

/-- Witness for C10: a LANDED event for F1 leaves the state untouched and F1
stays in the registry. -/
theorem non_schedule_event_noop_witness :
    applyEvent w0 sA eLand = sA ∧
    (lookupFlight (updateState w0 sA [eLand]).flights "F1").isSome = true := by
  have h := non_schedule_event_noop w0 sA eLand (by decide) (by decide)
  exact ⟨h.1, h.2 [eLand] "F1" rfl⟩

/-- Folding the per-job ledger credit over a job list adds, at every
airport/class point, exactly the sum of the quantities of the jobs aimed at
that point. -/
lemma creditFold (inv : String → KitClass → Int) (js : List ProcessingJob)
    (a : String) (c : KitClass) :
    (js.foldl
      (fun inv j => updInv inv j.airport j.kit_class (inv j.airport j.kit_class + j.quantity))
      inv) a c =
      inv a c +
        ((js.filter (fun j => j.airport = a ∧ j.kit_class = c)).map
          (fun j => j.quantity)).sum := by
  induction js generalizing inv with
  | nil => simp
  | cons j tl ih =>
      rw [List.foldl_cons, ih]
      by_cases hj : j.airport = a ∧ j.kit_class = c
      · rw [List.filter_cons_of_pos (by simpa using hj)]
        simp only [updInv, hj.1, hj.2, and_self, if_pos, List.map_cons, List.sum_cons]
        ring
      · rw [List.filter_cons_of_neg (by simpa using hj)]
        have : (updInv inv j.airport j.kit_class
            (inv j.airport j.kit_class + j.quantity)) a c = inv a c := by
          unfold updInv
          rw [if_neg (fun h => hj ⟨h.1.symm, h.2.symm⟩)]
        rw [this]

/-- Folding a guarded accumulation equals the initial value plus the sum of
the selected elements. -/
lemma foldl_if_sum {α : Type} (l : List α) (p : α → Prop) [DecidablePred p]
    (g : α → Int) (init : Int) :
    l.foldl (fun acc x => if p x then acc + g x else acc) init =
      init + ((l.filter (fun x => p x)).map g).sum := by
  induction l generalizing init with
  | nil => simp
  | cons x tl ih =>
      by_cases hx : p x
      · rw [List.foldl_cons, if_pos hx, ih,
          List.filter_cons_of_pos (by simpa using hx), List.map_cons,
          List.sum_cons]
        ring
      · rw [List.foldl_cons, if_neg hx, ih,
          List.filter_cons_of_neg (by simpa using hx)]

/-- C7: releasing matured processing jobs at a tick removes exactly the jobs
whose ready time has been reached, credits each released job's airport/class
ledger entry by its quantity exactly once, never grows the queue, and is the
first thing decide_kit_loads does, before any allocation. -/
theorem processing_release_exactly_once (s : StratState) (t : Tick) :
    (releaseCompleted s t).processing_queue =
      s.processing_queue.filter (fun j => !(timeLeq j.ready_time t)) ∧
    (∀ (a : String) (c : KitClass),
      (releaseCompleted s t).inventory a c =
        s.inventory a c +
          (((s.processing_queue.filter (fun j => timeLeq j.ready_time t)).filter
              (fun j => j.airport = a ∧ j.kit_class = c)).map
            (fun j => j.quantity)).sum) ∧
    (releaseCompleted s t).processing_queue.length ≤ s.processing_queue.length ∧
    (∀ w : World, decideKitLoads w s t = allocPhase w (releaseCompleted s t) t) := by
  refine ⟨rfl, ?_, ?_, fun w => rfl⟩
  · intro a c
    exact creditFold s.inventory _ a c
  · exact List.length_filter_le _ _

/-- C8: the destination-buffering demand query counts a flight exactly when
it departs the queried airport strictly after the window start and no later
than start + window; the hub-replenishment query counts it when it departs
HUB1 at or after the window start and no later than start + window. Both are
pure functions of the registry. -/
theorem demand_window_membership (flights : List (String × FlightInfo))
    (code : String) (start current : Tick) (window : Nat) (c : KitClass) :
    futureDemandForAirport flights code start window c =
      (((flights.map Prod.snd).filter (fun f =>
          f.origin = code ∧ timeToInt start < timeToInt f.departure ∧
            timeToInt f.departure ≤ timeToInt start + window)).map
        (fun f => f.passengers c)).sum ∧
    futureDemandFromHub flights current window c =
      (((flights.map Prod.snd).filter (fun f =>
          f.origin = "HUB1" ∧ timeToInt current ≤ timeToInt f.departure ∧
            timeToInt f.departure ≤ timeToInt current + window)).map
        (fun f => f.passengers c)).sum := by
  constructor
  · rw [futureDemandForAirport,
      foldl_if_sum (flights.map Prod.snd)
        (fun f => f.origin = code ∧ timeToInt start < timeToInt f.departure ∧
          timeToInt f.departure ≤ timeToInt start + window)
        (fun f => f.passengers c) 0]
    simp
  · rw [futureDemandFromHub,
      foldl_if_sum (flights.map Prod.snd)
        (fun f => f.origin = "HUB1" ∧ timeToInt current ≤ timeToInt f.departure ∧
          timeToInt f.departure ≤ timeToInt current + window)
        (fun f => f.passengers c) 0]
    simp

/-- A hub-origin flight with 200 FIRST passengers, creating forecast demand
over the FIRST purchase horizon. -/
def fBig : FlightInfo :=
  { flight_id := "F3", origin := "HUB1", destination := "A"
    departure := (0, 10), arrival := (0, 14)
    passengers := fun c => if c = KitClass.FIRST then 200 else 0
    aircraft_type := some "AC1" }

/-- Initial-inventory state with only flight F3 registered. -/
def sB : StratState := { initState w0 with flights := [("F3", fBig)] }

/-- C3: decide_purchases orders 0 for a class when the projected hub position
(ledger + incoming over the class horizon) already meets the target
(buffered demand plus extra margin), when the class lead time cannot finish
before the 720-hour simulation end, and for ECONOMY when under 18 hours
remain; otherwise it orders the shortfall capped by hub capacity headroom.
Orders are never negative, and each positive class appends exactly one
untagged hub job ready after the class lead time. -/
theorem purchase_order_spec (w : World) (s : StratState) (tick : Tick)
    (hub : Airport) (hw : w.airports "HUB1" = some hub) (cls : KitClass) :
    (purchaseTarget cls (futureDemandFromHub s.flights tick (purchaseHorizon cls) cls) ≤
        s.inventory "HUB1" cls +
          incomingKits s.processing_queue "HUB1" tick (purchaseHorizon cls) cls →
      (decidePurchases w s tick).2 cls = 0) ∧
    (TOTAL_GAME_HOURS ≤ timeToInt tick + leadTime cls →
      (decidePurchases w s tick).2 cls = 0) ∧
    (cls = KitClass.ECONOMY →
      (TOTAL_GAME_HOURS : Int) - (timeToInt tick : Int) < 18 →
      (decidePurchases w s tick).2 cls = 0) ∧
    (s.inventory "HUB1" cls +
        incomingKits s.processing_queue "HUB1" tick (purchaseHorizon cls) cls <
        purchaseTarget cls (futureDemandFromHub s.flights tick (purchaseHorizon cls) cls) →
      timeToInt tick + leadTime cls < TOTAL_GAME_HOURS →
      (cls = KitClass.ECONOMY →
        (18 : Int) ≤ (TOTAL_GAME_HOURS : Int) - (timeToInt tick : Int)) →
      (decidePurchases w s tick).2 cls =
        min (purchaseTarget cls
              (futureDemandFromHub s.flights tick (purchaseHorizon cls) cls) -
            (s.inventory "HUB1" cls +
              incomingKits s.processing_queue "HUB1" tick (purchaseHorizon cls) cls))
          (max 0 ((hub.capacity cls : Int) -
            (s.inventory "HUB1" cls +
              incomingKits s.processing_queue "HUB1" tick (purchaseHorizon cls) cls)))) ∧
    (0 ≤ (decidePurchases w s tick).2 cls) ∧
    ((decidePurchases w s tick).1.processing_queue =
      s.processing_queue ++ classOrder.filterMap (fun cls2 =>
        if (decidePurchases w s tick).2 cls2 ≤ 0 then none
        else some
          { ready_time := addHours tick (leadTime cls2), airport := "HUB1"
            kit_class := cls2, quantity := (decidePurchases w s tick).2 cls2
            flight_id := none })) ∧
    timeToInt (addHours tick (leadTime cls)) = timeToInt tick + leadTime cls := by
  have hd : (decidePurchases w s tick).2 = purchaseOrder hub s tick := by
    simp only [decidePurchases, hw]
  refine ⟨?_, ?_, ?_, ?_, ?_, ?_, timeToInt_addHours tick _⟩
  · intro h
    rw [hd]
    simp only [purchaseOrder]
    rw [if_pos h]
  · intro h
    rw [hd]
    simp only [purchaseOrder]
    split_ifs <;> rfl
  · intro hcls h
    rw [hd]
    simp only [purchaseOrder]
    split_ifs with h1 h2 h3 <;> first | rfl | exact absurd ⟨hcls, h⟩ h3
  · intro h1 h2 h3
    rw [hd]
    simp only [purchaseOrder]
    rw [if_neg (not_le.mpr h1), if_neg (not_le.mpr h2),
      if_neg (fun hc => absurd hc.2 (not_lt.mpr (h3 hc.1)))]
  · rw [hd]
    simp only [purchaseOrder]
    split_ifs with h1 h2 h3 <;> try exact le_refl 0
    exact le_min (by omega) (le_max_left 0 _)
  · simp only [decidePurchases, hw]

/-- Witness for C3: hub FIRST stock 100, forecast FIRST demand 200 over the
48-hour horizon, no incoming supply; target = 220 + 20 = 240, shortfall 140,
capacity headroom 400, so the FIRST order is 140 and is non-negative. -/
theorem purchase_order_spec_witness :
    (decidePurchases w0 sB (0, 0)).2 KitClass.FIRST = 140 ∧
    0 ≤ (decidePurchases w0 sB (0, 0)).2 KitClass.FIRST := by
  obtain ⟨_, _, _, h4, h5, _, _⟩ :=
    purchase_order_spec w0 sB (0, 0) hubAirport rfl KitClass.FIRST
  refine ⟨?_, h5⟩
  rw [h4 (by decide) (by decide) (fun hc => absurd hc (by decide))]
  decide

/-- A schedule announcement for F1 departing at (0, 5). -/
def eSched : FlightUpdate :=
  { eventType := "SCHEDULED", flightId := "F1", originAirport := "HUB1"
    destinationAirport := "A", departure := (0, 5), arrival := (0, 9)
    passengers := fun _ => 1, aircraftType := some "AC1" }

/-- A check-in for F1 that moves its departure to (0, 7). -/
def eMoved : FlightUpdate := { eSched with eventType := "CHECKED_IN", departure := (0, 7) }

/-- C4 counterexample: after a known flight's departure tick changes from
(0, 5) to (0, 7), update_state leaves the identifier indexed under both
ticks, so it appears in two departure-tick index entries at once. -/
theorem departure_index_double_entry :
    (updateState w0 (initState w0) [eSched, eMoved]).departures (0, 5) = ["F1"] ∧
    (updateState w0 (initState w0) [eSched, eMoved]).departures (0, 7) = ["F1"] ∧
    ((0, 5) : Tick) ≠ (0, 7) :=
  ⟨rfl, rfl, by decide⟩

/-- C4 (amended): within any single departure-tick index entry an identifier
appears at most once (update_state appends only when absent), and a tick's
entry is emptied once that tick's allocation has run; but after a departure
change the identifier may remain indexed under the old tick as well. -/
theorem departure_index_nodup (w : World) (s : StratState) (e : FlightUpdate)
    (hnd : ∀ t, (s.departures t).Nodup) :
    (∀ t, ((applyEvent w s e).departures t).Nodup) ∧
    (∀ (w2 : World) (s2 : StratState) (t : Tick),
      (decideKitLoads w2 s2 t).1.departures t = []) := by
  constructor
  · intro t
    by_cases he : e.eventType = "SCHEDULED" ∨ e.eventType = "CHECKED_IN"
    · have hdep : (applyEvent w s e).departures = fun u =>
          if u = e.departure then
            (if e.flightId ∈ s.departures e.departure then s.departures e.departure
             else s.departures e.departure ++ [e.flightId])
          else s.departures u := by
        unfold applyEvent
        rw [if_pos he]
        cases lookupFlight s.flights e.flightId with
        | none => rfl
        | some prev =>
            dsimp only
            split <;> rfl
      rw [hdep]
      dsimp only
      by_cases hu : t = e.departure
      · rw [if_pos hu]
        by_cases hm : e.flightId ∈ s.departures e.departure
        · rw [if_pos hm]; exact hnd _
        · rw [if_neg hm]
          refine List.nodup_append.mpr ⟨hnd _, List.nodup_singleton _, ?_⟩
          intro a ha hax
          exact hm ((List.mem_singleton.mp hax) ▸ ha)
      · rw [if_neg hu]; exact hnd t
    · unfold applyEvent
      rw [if_neg he]
      exact hnd t
  · intro w2 s2 t
    simp [decideKitLoads, allocPhase, clearTick]

/-- Witness for the amended C4: the check-in for F1 keeps the (0, 5) entry
duplicate-free, and running the (0, 5) allocation empties that entry. -/
theorem departure_index_nodup_witness :
    ((applyEvent w0 sA eResched).departures (0, 5)).Nodup ∧
    (decideKitLoads w0 sA (0, 5)).1.departures (0, 5) = [] := by
  have h := departure_index_nodup w0 sA eResched (by
    intro t
    show (if t = ((0, 5) : Tick) then ["F1"] else []).Nodup
    split <;> decide)
  exact ⟨h.1 (0, 5), h.2 w0 sA (0, 5)⟩

/-- The Scenario C flight with a malformed negative ECONOMY passenger count. -/
def fNeg : FlightInfo :=
  { fX with passengers := fun c => if c = KitClass.ECONOMY then -5 else 0 }

/-- State with the malformed flight registered and departing at (0, 5). -/
def sNeg : StratState :=
  { initState w0 with
    flights := [("F2", fNeg)]
    departures := fun t => if t = ((0, 5) : Tick) then ["F2"] else [] }

/-- C5 counterexample: a negative passenger count is not clamped —
decide_kit_loads returns a negative loaded quantity. -/
theorem negative_load_counterexample :
    ((decideKitLoads w0 sNeg (0, 5)).2.map (fun l => l.loaded KitClass.ECONOMY)) =
      [(-5 : Int)] ∧
    ((-5 : Int) < 0) :=
  ⟨rfl, by decide⟩

/-- C5 (amended): when passenger counts and ledger balances are non-negative,
every loaded quantity of a known-aircraft flight lies between 0 and the
aircraft kit capacity for its class; purchase orders are non-negative
unconditionally. The code performs no clamping, so a negative passenger
count propagates into a negative load. -/
theorem load_and_order_bounds (w : World) (s : StratState) (fid : String)
    (info : FlightInfo) (aircraft : AircraftType)
    (hf : lookupFlight s.flights fid = some info)
    (ha : aircraftLookup w info.aircraft_type = some aircraft)
    (cls : KitClass) :
    (∃ q : Int, ((processFlight w s fid).2.map (fun l => l.loaded cls)) = some q ∧
      q ≤ (aircraft.kit_capacity cls : Int) ∧
      ((∀ c, 0 ≤ info.passengers c) →
        (∀ (a : String) (c : KitClass), 0 ≤ s.inventory a c) → 0 ≤ q)) ∧
    (∀ (hub : Airport) (tick : Tick), 0 ≤ purchaseOrder hub s tick cls) := by
  constructor
  · have hcap : (0 : Int) ≤ (aircraft.kit_capacity cls : Int) := Int.natCast_nonneg _
    by_cases ho : info.origin = "HUB1"
    · obtain ⟨h1, -⟩ := processFlight_hub_eq w s fid info aircraft hf ho ha cls
      refine ⟨_, h1, by omega, ?_⟩
      intro hpax hinv
      have hp := hpax cls
      have h2 := hinv "HUB1" cls
      have h3 := hinv info.destination cls
      omega
    · obtain ⟨h1, -⟩ := processFlight_out_eq w s fid info aircraft hf ho ha cls
      refine ⟨_, h1, by omega, ?_⟩
      intro hpax hinv
      have hp := hpax cls
      have h2 := hinv info.origin cls
      omega
  · intro hub tick
    simp only [purchaseOrder]
    split_ifs with h1 h2 h3 <;> try exact le_refl 0
    exact le_min (by omega) (le_max_left 0 _)

/-- Witness for the amended C5: Scenario C's flight loads 3 ECONOMY kits, a
quantity between 0 and the capacity 50, and the hub ECONOMY order from that
state is non-negative. -/
theorem load_and_order_bounds_witness :
    ((processFlight w0 sX "F2").2.map (fun l => l.loaded KitClass.ECONOMY)) = some 3 ∧
    (0 : Int) ≤ 3 ∧ (3 : Int) ≤ (ac1.kit_capacity KitClass.ECONOMY : Int) ∧
    0 ≤ purchaseOrder hubAirport sX (0, 0) KitClass.ECONOMY := by
  have hinvX : ∀ (a : String) (c : KitClass), 0 ≤ sX.inventory a c := by
    intro a c
    show (0 : Int) ≤ (match w0.airports a with
      | some ap => fun c => ((ap.stock c : Int))
      | none => fun _ => 0) c
    cases w0.airports a with
    | none => exact le_refl 0
    | some ap => exact Int.natCast_nonneg _
  obtain ⟨⟨q, hq, hc, h0⟩, h2⟩ :=
    load_and_order_bounds w0 sX "F2" fX ac1 rfl rfl KitClass.ECONOMY
  have hmap : ((processFlight w0 sX "F2").2.map (fun l => l.loaded KitClass.ECONOMY)) =
      some 3 := rfl
  rw [hmap] at hq
  have hq3 : q = 3 := (Option.some.inj hq).symm
  subst hq3
  exact ⟨hmap, h0 (by intro c; cases c <;> decide) hinvX, hc, h2 hubAirport (0, 0)⟩

/-- Scenario C's flight redirected to an airport Z unknown to the world. -/
def fXZ : FlightInfo := { fX with destination := "Z" }

/-- State with the unknown-destination flight registered. -/
def sXZ : StratState :=
  { initState w0 with
    flights := [("F2", fXZ)]
    departures := fun t => if t = ((0, 5) : Tick) then ["F2"] else [] }

/-- A flight departing an airport Q unknown to the world. -/
def fUnk : FlightInfo := { fX with origin := "Q" }

/-- State with the unknown-origin flight registered. -/
def sUnk : StratState :=
  { initState w0 with
    flights := [("F2", fUnk)]
    departures := fun t => if t = ((0, 5) : Tick) then ["F2"] else [] }

/-- C6 counterexample: a flight from the known outstation X (ECONOMY stock 3,
10 passengers, capacity 50) to an airport unknown to the world loads 3
ECONOMY kits, not zero — the outstation branch never consults the
destination. -/
theorem unknown_destination_counterexample :
    w0.airports "Z" = none ∧
    ((decideKitLoads w0 sXZ (0, 5)).2.map (fun l => l.loaded KitClass.ECONOMY)) =
      [(3 : Int)] ∧
    ((3 : Int) ≠ 0) :=
  ⟨rfl, rfl, by decide⟩

/-- C6 (amended): an unknown origin (whose ledger entry is zero, as every
airport the world does not know starts at zero) yields a zero load; an
unknown destination yields a zero load for hub-origin flights and suppresses
the processing-return enqueue for every flight; but an outstation flight to
an unknown destination still loads min(pax, capacity, stock). No case
raises. -/
theorem unknown_airport_allocation (w : World) (s : StratState) (fid : String)
    (info : FlightInfo) (aircraft : AircraftType)
    (hf : lookupFlight s.flights fid = some info)
    (ha : aircraftLookup w info.aircraft_type = some aircraft)
    (cls : KitClass) :
    (info.origin ≠ "HUB1" → s.inventory info.origin cls = 0 →
      0 ≤ info.passengers cls →
      ((processFlight w s fid).2.map (fun l => l.loaded cls)) = some 0) ∧
    (info.origin = "HUB1" → w.airports info.destination = none →
      0 ≤ info.passengers cls → 0 ≤ s.inventory "HUB1" cls →
      0 ≤ s.inventory info.destination cls →
      ((processFlight w s fid).2.map (fun l => l.loaded cls)) = some 0) ∧
    (w.airports info.destination = none →
      (processFlight w s fid).1.processing_queue = s.processing_queue) := by
  refine ⟨?_, ?_, ?_⟩
  · intro ho hz hp
    obtain ⟨h1, -⟩ := processFlight_out_eq w s fid info aircraft hf ho ha cls
    rw [h1, hz]
    have hcap : (0 : Int) ≤ (aircraft.kit_capacity cls : Int) := Int.natCast_nonneg _
    simp only [Option.some.injEq]
    omega
  · intro ho hdz hp hhub hdst
    obtain ⟨h1, -⟩ := processFlight_hub_eq w s fid info aircraft hf ho ha cls
    have hdc : destCapOf w info.destination cls = 0 := by
      simp [destCapOf, hdz]
    rw [h1, hdc]
    have hcap : (0 : Int) ≤ (aircraft.kit_capacity cls : Int) := Int.natCast_nonneg _
    simp only [Option.some.injEq]
    omega
  · intro hdz
    simp [processFlight, hf, ha, enqueueReturns, hdz]

/-- Witness for the amended C6: the flight from unknown origin Q loads zero
ECONOMY kits, and the flight from X to unknown Z enqueues no processing
job. -/
theorem unknown_airport_allocation_witness :
    ((processFlight w0 sUnk "F2").2.map (fun l => l.loaded KitClass.ECONOMY)) = some 0 ∧
    (processFlight w0 sXZ "F2").1.processing_queue = sXZ.processing_queue := by
  refine ⟨?_, ?_⟩
  · exact (unknown_airport_allocation w0 sUnk "F2" fUnk ac1 rfl rfl
      KitClass.ECONOMY).1 (by decide) rfl (by decide)
  · exact (unknown_airport_allocation w0 sXZ "F2" fXZ ac1 rfl rfl
      KitClass.ECONOMY).2.2 rfl

end Kits
